import Mathlib

/-!
Verification of the cm-sdk-react-native-v3-newarch bridge.

The development shallowly embeds the JavaScript layer (configuration
normalization, background-style factories, ATT status guard) and the iOS
native layer (delegate state machine, geometry resolver) as executable
Lean definitions, and proves the specified properties about them.

Colors are resolved by the external platform function `processColor`;
the embedding is parametric in a resolver `pc : ColorVal → Option Int`
(`none` models a `null` result, which the code turns into an error).
Numeric values (coordinates, opacity, corner radius) are embedded as
rationals.
-/

namespace CmSdk

/-- A JavaScript color value: a string name or a numeric color. -/
inductive ColorVal where
  | str (s : String)
  | num (n : Int)
deriving DecidableEq

/-- The `WebViewPosition` enum of the TypeScript module; `val` below gives
the string each case carries. -/
inductive WebViewPosition where
  | fullScreen
  | halfScreenTop
  | halfScreenBottom
  | custom
deriving DecidableEq

/-- String value of a `WebViewPosition` enum case. -/
def WebViewPosition.val : WebViewPosition → String
  | .fullScreen => "fullScreen"
  | .halfScreenTop => "halfScreenTop"
  | .halfScreenBottom => "halfScreenBottom"
  | .custom => "custom"

/-- The `BackgroundStyleType` enum of the TypeScript module. -/
inductive BackgroundStyleType where
  | dimmed
  | color
  | blur
  | none
deriving DecidableEq

/-- String value of a `BackgroundStyleType` enum case. -/
def BackgroundStyleType.val : BackgroundStyleType → String
  | .dimmed => "dimmed"
  | .color => "color"
  | .blur => "blur"
  | .none => "none"

/-- The `BlurEffectStyle` enum of the TypeScript module. -/
inductive BlurEffectStyle where
  | light
  | dark
  | extraLight
deriving DecidableEq

/-- String value of a `BlurEffectStyle` enum case. -/
def BlurEffectStyle.val : BlurEffectStyle → String
  | .light => "light"
  | .dark => "dark"
  | .extraLight => "extraLight"

/-- The `ATTStatus` numeric enum of the TypeScript module. -/
inductive ATTStatus where
  | notDetermined
  | restricted
  | denied
  | authorized
deriving DecidableEq

/-- Numeric value of an `ATTStatus` enum case
(Apple's ATTrackingManagerAuthorizationStatus). -/
def ATTStatus.toInt : ATTStatus → Int
  | .notDetermined => 0
  | .restricted => 1
  | .denied => 2
  | .authorized => 3

/-- The `WebViewRect` record: {x, y, width, height}. -/
structure WebViewRect where
  x : ℚ
  y : ℚ
  width : ℚ
  height : ℚ
deriving DecidableEq

/-- A runtime `WebViewBackgroundStyle` value as supplied by the caller:
a tag string plus the optional payload fields (a field that is absent or
`undefined` in JavaScript is `none` here). -/
structure BgStyleIn where
  type : String
  color : Option ColorVal := Option.none
  opacity : Option ℚ := Option.none
  blurEffectStyle : Option String := Option.none
deriving DecidableEq

/-- A normalized background style as produced by `normalizeWebViewConfig`:
the color has been resolved to a platform numeric color. -/
structure BgStyleOut where
  type : String
  color : Option Int := Option.none
  opacity : Option ℚ := Option.none
  blurEffectStyle : Option String := Option.none
deriving DecidableEq

/-- The caller-supplied `WebViewConfig`: every field optional. -/
structure WebViewConfig where
  position : Option String := Option.none
  customRect : Option WebViewRect := Option.none
  cornerRadius : Option ℚ := Option.none
  respectsSafeArea : Option Bool := Option.none
  allowsOrientationChanges : Option Bool := Option.none
  backgroundStyle : Option BgStyleIn := Option.none
deriving DecidableEq

/-- The fully populated `WebViewConfig` returned by
`normalizeWebViewConfig` (the object literal built at its end). -/
structure NormalizedWebViewConfig where
  position : String
  customRect : Option WebViewRect
  cornerRadius : ℚ
  respectsSafeArea : Bool
  allowsOrientationChanges : Bool
  backgroundStyle : BgStyleOut
deriving DecidableEq

/- The `BackgroundStyle` factory object of `NativeCmSdkReactNativeV3.ts`. -/
namespace BackgroundStyle

/-- `BackgroundStyle.dimmed(color?, opacity?)`. -/
def dimmed (color : Option ColorVal) (opacity : Option ℚ) : BgStyleIn :=
  { type := "dimmed", color := color, opacity := opacity }

/-- `BackgroundStyle.color(color)`. -/
def color (c : ColorVal) : BgStyleIn :=
  { type := "color", color := some c }

/-- `BackgroundStyle.blur(blurEffectStyle = BlurEffectStyle.Dark)`:
the parameter default fills `dark` when the argument is omitted. -/
def blur (s : Option BlurEffectStyle) : BgStyleIn :=
  { type := "blur", blurEffectStyle := some (s.getD BlurEffectStyle.dark).val }

/-- `BackgroundStyle.none()`. -/
def none : BgStyleIn :=
  { type := "none" }

end BackgroundStyle

/-- The `allowedPositions` list of `normalizeWebViewConfig`. -/
def allowedPositions : List String :=
  [WebViewPosition.fullScreen.val, WebViewPosition.halfScreenTop.val,
   WebViewPosition.halfScreenBottom.val, WebViewPosition.custom.val]

/-- JavaScript falsiness of a present color value (`string | number`):
the number 0 and the empty string are falsy, everything else is truthy. -/
def ColorVal.isFalsy : ColorVal → Bool
  | ColorVal.num n => n = 0
  | ColorVal.str s => s = ""

/-- The `normalizeColor` helper: `undefined` passes through, a color that
the platform resolver rejects is an error, otherwise the processed color. -/
def normalizeColor (pc : ColorVal → Option Int) :
    Option ColorVal → Except String (Option Int)
  | Option.none => Except.ok Option.none
  | some cv =>
    match pc cv with
    | Option.none => Except.error "Invalid color value"
    | some n => Except.ok (some n)

/-- The IIFE computing `backgroundStyle` inside `normalizeWebViewConfig`:
unset defaults to dimmed black at opacity 1/2; `dimmed` fills black/1/2
(nullish coalescing, so a present falsy color passes through) and resolves
the color; `color` guards with JavaScript falsiness (`!color`), throwing
when the color is absent or falsy (0 or the empty string), and resolves it
otherwise; `blur` defaults `dark` and rejects styles outside the three
enumerated ones; `none` has no payload; any other tag is an error. -/
def normalizeBackgroundStyle (pc : ColorVal → Option Int) :
    Option BgStyleIn → Except String BgStyleOut
  | Option.none =>
    match normalizeColor pc (some (ColorVal.str "black")) with
    | Except.error e => Except.error e
    | Except.ok c =>
      Except.ok { type := "dimmed", color := c, opacity := some (1/2) }
  | some bg =>
    if bg.type = "dimmed" then
      match normalizeColor pc (some (bg.color.getD (ColorVal.str "black"))) with
      | Except.error e => Except.error e
      | Except.ok c =>
        Except.ok { type := bg.type, color := c,
                    opacity := some (bg.opacity.getD (1/2)) }
    else if bg.type = "color" then
      match bg.color with
      | Option.none => Except.error "color is required for backgroundStyle color"
      | some cv =>
        if cv.isFalsy then
          Except.error "color is required for backgroundStyle color"
        else
          match normalizeColor pc (some cv) with
          | Except.error e => Except.error e
          | Except.ok c => Except.ok { type := bg.type, color := c }
    else if bg.type = "blur" then
      let blurStyle := bg.blurEffectStyle.getD "dark"
      if blurStyle ≠ BlurEffectStyle.dark.val ∧ blurStyle ≠ BlurEffectStyle.light.val ∧
          blurStyle ≠ BlurEffectStyle.extraLight.val then
        Except.error "Invalid blurEffectStyle"
      else
        Except.ok { type := bg.type, blurEffectStyle := some blurStyle }
    else if bg.type = "none" then
      Except.ok { type := bg.type }
    else
      Except.error "Invalid backgroundStyle type"

/-- `normalizeWebViewConfig` of `part_004`: validates the position, requires
`customRect` for the custom position, normalizes the background style and
fills the remaining defaults (cornerRadius 5, respectsSafeArea true,
allowsOrientationChanges true), passing `customRect` through unchanged. -/
def normalizeWebViewConfig (pc : ColorVal → Option Int)
    (config : WebViewConfig) : Except String NormalizedWebViewConfig :=
  if allowedPositions.contains
      (config.position.getD WebViewPosition.fullScreen.val) = false then
    Except.error "Invalid WebView position"
  else if config.position.getD WebViewPosition.fullScreen.val =
      WebViewPosition.custom.val ∧ config.customRect = Option.none then
    Except.error "customRect is required when position is custom"
  else
    match normalizeBackgroundStyle pc config.backgroundStyle with
    | Except.error e => Except.error e
    | Except.ok backgroundStyle =>
      Except.ok
        { position := config.position.getD WebViewPosition.fullScreen.val
          customRect := config.customRect
          cornerRadius := config.cornerRadius.getD 5
          respectsSafeArea := config.respectsSafeArea.getD true
          allowsOrientationChanges := config.allowsOrientationChanges.getD true
          backgroundStyle := backgroundStyle }

/-- A call crossing the bridge into the native module. -/
inductive NativeCall where
  | setWebViewConfig (c : NormalizedWebViewConfig)
  | setATTStatus (n : Int)
deriving DecidableEq

/-- The exported `setWebViewConfig`: normalize first, and only on success
invoke the native `setWebViewConfig` with the normalized config. The second
component lists the native calls made. -/
def setWebViewConfigOp (pc : ColorVal → Option Int) (config : WebViewConfig) :
    Except String NormalizedWebViewConfig × List NativeCall :=
  match normalizeWebViewConfig pc config with
  | Except.error e => (Except.error e, [])
  | Except.ok n => (Except.ok n, [NativeCall.setWebViewConfig n])

/-- The `allowed` set built inside `setATTStatus` from the four enum cases. -/
def attAllowed : List Int :=
  [ATTStatus.notDetermined.toInt, ATTStatus.restricted.toInt,
   ATTStatus.denied.toInt, ATTStatus.authorized.toInt]

/-- The exported `setATTStatus`: reject any value outside the enum set
before any native call; otherwise forward the value to the native module. -/
def setATTStatusOp (status : Int) : Except String Unit × List NativeCall :=
  if attAllowed.contains status = false then
    (Except.error "Invalid ATT status", [])
  else
    (Except.ok (), [NativeCall.setATTStatus status])

/-! ## iOS native delegate (CmSdkReactNativeV3Impl.swift) -/

/-- The two boolean flags of `CmSdkReactNativeV3Impl`. -/
structure DelegateState where
  isConsentLayerShown : Bool
  shouldHandleLinkClicks : Bool
deriving DecidableEq

/-- Initial delegate state: both flags are declared `false`. -/
def initState : DelegateState :=
  { isConsentLayerShown := false, shouldHandleLinkClicks := false }

/-- One native-side invocation hitting the bridge delegate: a
`CMPManagerDelegate` callback, or the link-click handler closure firing. -/
inductive Callback where
  | didReceiveConsent (consent : String)
  | didShowConsentLayer
  | didCloseConsentLayer
  | didReceiveError (e : String)
  | didChangeATTStatus (oldStatus newStatus : Int)
  | linkClick (url : String)
deriving DecidableEq

/-- An event forwarded to JavaScript via `sendEvent`. -/
inductive Event where
  | didReceiveConsent (consent : String)
  | didShowConsentLayer
  | didCloseConsentLayer
  | didReceiveError (e : String)
  | didChangeATTStatus (oldStatus newStatus : Int)
  | onClickLink (url : String)
deriving DecidableEq

/-- Boolean substring test standing for Swift's `String.contains`. -/
def containsSub (s pat : String) : Bool :=
  decide (List.IsInfix pat.toList s.toList)

/-- The `setLinkClickHandler` closure: when `shouldHandleLinkClicks` is
false it emits nothing and returns `false` (allow navigation); otherwise it
emits `onClickLink` and decides navigation from the URL contents. -/
def handleLinkClick (s : DelegateState) (url : String) : List Event × Bool :=
  if s.shouldHandleLinkClicks then
    ([Event.onClickLink url],
     !(containsSub url "google.com") || containsSub url "privacy" ||
       containsSub url "terms")
  else
    ([], false)

/-- One delegate callback: the next state and the events forwarded.
`didShowConsentLayer` sets both flags and forwards the event;
`didCloseConsentLayer` forwards and clears only when the layer was marked
shown; the remaining callbacks forward without touching the flags. -/
def step (s : DelegateState) : Callback → DelegateState × List Event
  | Callback.didReceiveConsent c => (s, [Event.didReceiveConsent c])
  | Callback.didShowConsentLayer =>
    ({ isConsentLayerShown := true, shouldHandleLinkClicks := true },
     [Event.didShowConsentLayer])
  | Callback.didCloseConsentLayer =>
    if s.isConsentLayerShown then
      ({ isConsentLayerShown := false, shouldHandleLinkClicks := false },
       [Event.didCloseConsentLayer])
    else
      (s, [])
  | Callback.didReceiveError e => (s, [Event.didReceiveError e])
  | Callback.didChangeATTStatus o n => (s, [Event.didChangeATTStatus o n])
  | Callback.linkClick url => (s, (handleLinkClick s url).1)

/-- Run a sequence of native callbacks from a state, collecting the
forwarded events in order. -/
def run (s : DelegateState) : List Callback → DelegateState × List Event
  | [] => (s, [])
  | c :: cs =>
    ((run (step s c).1 cs).1, (step s c).2 ++ (run (step s c).1 cs).2)

/-- `closesMatched b es` holds when every `didCloseConsentLayer` in `es` is
preceded by a `didShowConsentLayer` forwarded since the previous close
(`b` records whether such a show is already pending). -/
def closesMatched : Bool → List Event → Bool
  | _, [] => true
  | _, Event.didShowConsentLayer :: es => closesMatched true es
  | b, Event.didCloseConsentLayer :: es => b && closesMatched false es
  | b, _ :: es => closesMatched b es

/-! ## iOS geometry resolver -/

/-- Safe-area insets. -/
structure EdgeInsets where
  top : ℚ
  bottom : ℚ
  left : ℚ
  right : ℚ
deriving DecidableEq

/-- Zero insets (`UIEdgeInsets.zero`). -/
def EdgeInsets.zero : EdgeInsets := { top := 0, bottom := 0, left := 0, right := 0 }

/-- A concrete rectangle (CGRect). -/
structure CGRect where
  x : ℚ
  y : ℚ
  width : ℚ
  height : ℚ
deriving DecidableEq

/-- The screen bounds (origin 0,0). -/
structure ScreenBounds where
  width : ℚ
  height : ℚ
deriving DecidableEq

/-- The native SDK's `Position` value produced by `mapPosition`. -/
inductive Position where
  | fullScreen
  | custom (r : CGRect)
deriving DecidableEq

/-- `rectFromDictionary`: the caller-supplied rectangle, moved in by the
left/top insets and shrunk by the horizontal/vertical inset sums when
`respectsSafeArea`; unchanged otherwise. -/
def rectFromDictionary (insets : EdgeInsets) (r : WebViewRect)
    (respectsSafeArea : Bool) : CGRect :=
  let i := if respectsSafeArea then insets else EdgeInsets.zero
  { x := r.x + i.left
    y := r.y + i.top
    width := r.width - (i.left + i.right)
    height := r.height - (i.top + i.bottom) }

/-- `mapPosition`: custom position with a rectangle yields the adjusted
rectangle; half-screen positions split the usable height in half;
everything else is full screen. -/
def mapPosition (screen : ScreenBounds) (insets : EdgeInsets)
    (position : Option String) (customRect : Option WebViewRect)
    (respectsSafeArea : Bool) : Position :=
  match position, customRect with
  | some "custom", some r =>
    Position.custom (rectFromDictionary insets r respectsSafeArea)
  | p, _ =>
    let usableHeight :=
      screen.height - (if respectsSafeArea then insets.top + insets.bottom else 0)
    let halfHeight := usableHeight / 2
    match p with
    | Option.none => Position.fullScreen
    | some pv =>
      if pv = "halfScreenTop" then
        Position.custom
          { x := 0, y := if respectsSafeArea then insets.top else 0,
            width := screen.width, height := halfHeight }
      else if pv = "halfScreenBottom" then
        Position.custom
          { x := 0, y := (if respectsSafeArea then insets.top else 0) + halfHeight,
            width := screen.width, height := halfHeight }
      else
        Position.fullScreen

/-! ## CMP info round trip -/

/-- Abstract view of the native CMP SDK for export/import: the opaque
string its `exportCMPInfo` currently produces, and for each imported string
either `none` (success) or `some msg` (the error handed to the completion). -/
structure NativeCMP where
  exported : String
  importOutcome : String → Option String

/-- The bridge `exportCMPInfo`: resolves with exactly the native string. -/
def exportCMPInfoOp (n : NativeCMP) : String :=
  n.exported

/-- The argument the bridge hands to the native `importCMPInfo`: the
caller's string, unchanged (JavaScript and Swift both pass it through). -/
def importCMPInfoArg (cmpString : String) : String :=
  cmpString

/-- The bridge `importCMPInfo`: forwards the caller's string to the native
SDK and resolves `true` on success, rejects with a message on error. -/
def importCMPInfoOp (n : NativeCMP) (cmpString : String) : Except String Bool :=
  match n.importOutcome (importCMPInfoArg cmpString) with
  | Option.none => Except.ok true
  | some e => Except.error ("Failed to import CMP info: " ++ e)

/-! ## Spec-side characterization and a sample resolver -/

/-- The validation-error cases exactly as the specification enumerates
them: an invalid position, a custom position without `customRect`, a
`color` style without a color, an unresolvable color for `dimmed` or
`color`, a blur style outside the three enumerated ones, and an
unrecognized background-style tag. Stated from the spec's words, to be
compared with `normalizeWebViewConfig`. -/
def specWebViewConfigErrorCases (pc : ColorVal → Option Int)
    (config : WebViewConfig) : Prop :=
  ¬ config.position.getD "fullScreen" ∈ allowedPositions ∨
  (config.position.getD "fullScreen" = "custom" ∧ config.customRect = Option.none) ∨
  (∃ bg, config.backgroundStyle = some bg ∧
    ((bg.type = "color" ∧ bg.color = Option.none) ∨
     ((bg.type = "dimmed" ∨ bg.type = "color") ∧
       ∃ c, bg.color = some c ∧ pc c = Option.none) ∨
     (bg.type = "blur" ∧
       ¬ bg.blurEffectStyle.getD "dark" ∈ (["light", "dark", "extraLight"] : List String)) ∨
     ¬ bg.type ∈ (["dimmed", "color", "blur", "none"] : List String)))

/-- The validation-error cases of the claim, amended no further than the
code forces: the `color` style errors when its color is absent **or
falsy** (the number 0 or the empty string, which JavaScript's `!color`
guard also rejects); the other five cases are unchanged. -/
def specWebViewConfigErrorCasesAmended (pc : ColorVal → Option Int)
    (config : WebViewConfig) : Prop :=
  ¬ config.position.getD "fullScreen" ∈ allowedPositions ∨
  (config.position.getD "fullScreen" = "custom" ∧ config.customRect = Option.none) ∨
  (∃ bg, config.backgroundStyle = some bg ∧
    ((bg.type = "color" ∧ (bg.color = Option.none ∨
       ∃ c, bg.color = some c ∧ c.isFalsy = true)) ∨
     ((bg.type = "dimmed" ∨ bg.type = "color") ∧
       ∃ c, bg.color = some c ∧ pc c = Option.none) ∨
     (bg.type = "blur" ∧
       ¬ bg.blurEffectStyle.getD "dark" ∈ (["light", "dark", "extraLight"] : List String)) ∨
     ¬ bg.type ∈ (["dimmed", "color", "blur", "none"] : List String)))

/-- A sample platform color resolver, mirroring the repository's test mock
for `processColor`: numbers pass through, one designated string is
unresolvable, every other string resolves to opaque black. -/
def pcMock : ColorVal → Option Int
  | ColorVal.num n => some n
  | ColorVal.str s => if s = "invalid-color-xyz" then Option.none else some 4278190080

end CmSdk

namespace CmSdk

/-- C3: each BackgroundStyle factory tags its result with the requested
variant, leaves unset optional parameters undefined, `blur` defaults its
style to dark, and `none` carries no payload; the factories are total
functions of their arguments (no validation, no failure). -/
theorem backgroundStyle_factories :
    (∀ c o, BackgroundStyle.dimmed c o =
      { type := "dimmed", color := c, opacity := o, blurEffectStyle := Option.none }) ∧
    BackgroundStyle.dimmed Option.none Option.none =
      { type := "dimmed", color := Option.none, opacity := Option.none,
        blurEffectStyle := Option.none } ∧
    (∀ c, BackgroundStyle.color c =
      { type := "color", color := some c, opacity := Option.none,
        blurEffectStyle := Option.none }) ∧
    (∀ s, BackgroundStyle.blur s =
      { type := "blur", color := Option.none, opacity := Option.none,
        blurEffectStyle := some (s.getD BlurEffectStyle.dark).val }) ∧
    BackgroundStyle.blur Option.none =
      { type := "blur", color := Option.none, opacity := Option.none,
        blurEffectStyle := some "dark" } ∧
    BackgroundStyle.blur (some BlurEffectStyle.light) =
      { type := "blur", color := Option.none, opacity := Option.none,
        blurEffectStyle := some "light" } ∧
    BackgroundStyle.none =
      { type := "none", color := Option.none, opacity := Option.none,
        blurEffectStyle := Option.none } := by
  refine ⟨fun c o => rfl, rfl, fun c => rfl, fun s => rfl, rfl, rfl, rfl⟩

/-- C4: the ATTStatus enum maps NotDetermined, Restricted, Denied,
Authorized to 0, 1, 2, 3; `setATTStatus` rejects every other integer
before any native call, and forwards members of the set unchanged. -/
theorem setATTStatus_guard :
    ATTStatus.notDetermined.toInt = 0 ∧ ATTStatus.restricted.toInt = 1 ∧
    ATTStatus.denied.toInt = 2 ∧ ATTStatus.authorized.toInt = 3 ∧
    (∀ n : Int, ¬ n ∈ ([0, 1, 2, 3] : List Int) →
      setATTStatusOp n = (Except.error "Invalid ATT status", [])) ∧
    (∀ n : Int, n ∈ ([0, 1, 2, 3] : List Int) →
      setATTStatusOp n = (Except.ok (), [NativeCall.setATTStatus n])) := by
  refine ⟨rfl, rfl, rfl, rfl, ?_, ?_⟩
  · intro n hn
    simp only [setATTStatusOp]
    rw [if_pos]
    simpa [attAllowed, ATTStatus.toInt, List.contains] using hn
  · intro n hn
    have hc : attAllowed.contains n = true := by
      simpa [attAllowed, ATTStatus.toInt, List.contains] using hn
    simp only [setATTStatusOp]
    rw [if_neg (by simp only [hc]; simp)]

/-- Closed instance of `setATTStatus_guard`: 5 is rejected, 2 forwarded. -/
theorem setATTStatus_guard_witness :
    ¬ (5 : Int) ∈ ([0, 1, 2, 3] : List Int) ∧
    setATTStatusOp 5 = (Except.error "Invalid ATT status", []) ∧
    (2 : Int) ∈ ([0, 1, 2, 3] : List Int) ∧
    setATTStatusOp 2 = (Except.ok (), [NativeCall.setATTStatus 2]) :=
  ⟨by decide, setATTStatus_guard.2.2.2.2.1 5 (by decide), by decide,
   setATTStatus_guard.2.2.2.2.2 2 (by decide)⟩

/-- C8: the bridge passes CMP info through unchanged in both directions
(`exportCMPInfo` resolves exactly the native string, `importCMPInfo`
forwards exactly the caller's string), so when the native SDK accepts its
own export the round trip resolves with `true`. -/
theorem cmpInfo_roundtrip (n : NativeCMP)
    (h : n.importOutcome n.exported = Option.none) :
    importCMPInfoOp n (exportCMPInfoOp n) = Except.ok true ∧
    exportCMPInfoOp n = n.exported ∧
    ∀ s, importCMPInfoArg s = s := by
  refine ⟨?_, rfl, fun s => rfl⟩
  simp [importCMPInfoOp, importCMPInfoArg, exportCMPInfoOp, h]

/-- Closed instance of `cmpInfo_roundtrip` on a concrete native model. -/
theorem cmpInfo_roundtrip_witness :
    (NativeCMP.mk "opaque-blob" (fun _ => Option.none)).importOutcome
        (NativeCMP.mk "opaque-blob" (fun _ => Option.none)).exported = Option.none ∧
    importCMPInfoOp (NativeCMP.mk "opaque-blob" (fun _ => Option.none))
        (exportCMPInfoOp (NativeCMP.mk "opaque-blob" (fun _ => Option.none))) =
      Except.ok true :=
  ⟨rfl, (cmpInfo_roundtrip (NativeCMP.mk "opaque-blob" (fun _ => Option.none)) rfl).1⟩

/-- Running callbacks from any state whose shown flag matches the pending
show/close discipline keeps every forwarded close matched by a show. -/
lemma closesMatched_run (cs : List Callback) :
    ∀ s : DelegateState,
      closesMatched s.isConsentLayerShown (run s cs).2 = true := by
  induction cs with
  | nil => intro s; simp [run, closesMatched]
  | cons c cs ih =>
    intro s
    cases c with
    | didReceiveConsent con =>
      simpa [run, step, closesMatched] using ih s
    | didShowConsentLayer =>
      simpa [run, step, closesMatched] using ih
        { isConsentLayerShown := true, shouldHandleLinkClicks := true }
    | didCloseConsentLayer =>
      by_cases h : s.isConsentLayerShown = true
      · simpa [run, step, h, closesMatched] using ih
          { isConsentLayerShown := false, shouldHandleLinkClicks := false }
      · have h2 : s.isConsentLayerShown = false := by
          cases hb : s.isConsentLayerShown with
          | true => exact absurd hb h
          | false => rfl
        simpa [run, step, h2, closesMatched] using ih s
    | didReceiveError e =>
      simpa [run, step, closesMatched] using ih s
    | didChangeATTStatus o n =>
      simpa [run, step, closesMatched] using ih s
    | linkClick url =>
      by_cases h : s.shouldHandleLinkClicks = true
      · simpa [run, step, handleLinkClick, h, closesMatched] using ih s
      · have h2 : s.shouldHandleLinkClicks = false := by
          cases hb : s.shouldHandleLinkClicks with
          | true => exact absurd hb h
          | false => rfl
        simpa [run, step, handleLinkClick, h2, closesMatched] using ih s

/-- C5: over every sequence of native callbacks, each forwarded
layer-closed event is preceded by a layer-shown forwarded since the last
forwarded close; concretely, a spurious close is suppressed and a
subsequent genuine show/close pair is delivered in full. -/
theorem close_only_after_show :
    (∀ cs : List Callback,
      closesMatched false (run initState cs).2 = true) ∧
    run initState
        [Callback.didCloseConsentLayer, Callback.didShowConsentLayer,
         Callback.didCloseConsentLayer] =
      (initState, [Event.didShowConsentLayer, Event.didCloseConsentLayer]) := by
  constructor
  · intro cs
    simpa [initState] using closesMatched_run cs initState
  · rfl

/-- C6: the link-click gate starts disabled, is enabled by a shown
callback and disabled by a forwarded close; while disabled, a link click
emits nothing and returns false (allowing navigation), and the
`onClickLink` event is emitted exactly when the gate is enabled. -/
theorem linkClick_gate :
    initState.shouldHandleLinkClicks = false ∧
    (∀ s, (step s Callback.didShowConsentLayer).1.shouldHandleLinkClicks = true) ∧
    (∀ s, s.isConsentLayerShown = true →
      (step s Callback.didCloseConsentLayer).1.shouldHandleLinkClicks = false) ∧
    (∀ s url, s.shouldHandleLinkClicks = false →
      handleLinkClick s url = ([], false)) ∧
    (∀ s url, Event.onClickLink url ∈ (handleLinkClick s url).1 ↔
      s.shouldHandleLinkClicks = true) := by
  refine ⟨rfl, fun s => rfl, fun s h => by simp [step, h], ?_, ?_⟩
  · intro s url h
    simp [handleLinkClick, h]
  · intro s url
    by_cases h : s.shouldHandleLinkClicks = true
    · simp [handleLinkClick, h]
    · have h2 : s.shouldHandleLinkClicks = false := by
        cases hb : s.shouldHandleLinkClicks with
        | true => exact absurd hb h
        | false => rfl
      simp [handleLinkClick, h2]

/-- Closed instance of `linkClick_gate`: in the initial state (gate
disabled) a link click emits nothing and permits navigation. -/
theorem linkClick_gate_witness :
    initState.shouldHandleLinkClicks = false ∧
    handleLinkClick initState "https://example.com/privacy" = ([], false) :=
  ⟨rfl, linkClick_gate.2.2.2.1 initState "https://example.com/privacy" rfl⟩

/-- Flag equality is preserved by every run. -/
lemma run_flags_eq (cs : List Callback) :
    ∀ s : DelegateState,
      s.isConsentLayerShown = s.shouldHandleLinkClicks →
      (run s cs).1.isConsentLayerShown = (run s cs).1.shouldHandleLinkClicks := by
  induction cs with
  | nil => intro s h; simpa [run] using h
  | cons c cs ih =>
    intro s h
    cases c with
    | didReceiveConsent con => simpa [run, step] using ih s h
    | didShowConsentLayer =>
      simpa [run, step] using ih
        { isConsentLayerShown := true, shouldHandleLinkClicks := true } rfl
    | didCloseConsentLayer =>
      by_cases hb : s.isConsentLayerShown = true
      · simpa [run, step, hb] using ih
          { isConsentLayerShown := false, shouldHandleLinkClicks := false } rfl
      · have h2 : s.isConsentLayerShown = false := by
          cases hx : s.isConsentLayerShown with
          | true => exact absurd hx hb
          | false => rfl
        simpa [run, step, h2] using ih s h
    | didReceiveError e => simpa [run, step] using ih s h
    | didChangeATTStatus o n => simpa [run, step] using ih s h
    | linkClick url => simpa [run, step] using ih s h

/-- C9: `isConsentLayerShown` and `shouldHandleLinkClicks` move in
lockstep: both start false, a shown callback sets both, a close callback
either clears both or leaves the state untouched, no other callback
changes the state, and in every reachable state the flags are equal. -/
theorem flags_in_lockstep :
    initState.isConsentLayerShown = false ∧
    initState.shouldHandleLinkClicks = false ∧
    (∀ s, (step s Callback.didShowConsentLayer).1 =
      { isConsentLayerShown := true, shouldHandleLinkClicks := true }) ∧
    (∀ s, (step s Callback.didCloseConsentLayer).1 =
      if s.isConsentLayerShown then
        { isConsentLayerShown := false, shouldHandleLinkClicks := false }
      else s) ∧
    (∀ s c, c ≠ Callback.didShowConsentLayer →
      c ≠ Callback.didCloseConsentLayer → (step s c).1 = s) ∧
    (∀ cs : List Callback,
      (run initState cs).1.isConsentLayerShown =
        (run initState cs).1.shouldHandleLinkClicks) := by
  refine ⟨rfl, rfl, fun s => rfl, ?_, ?_, ?_⟩
  · intro s
    by_cases hb : s.isConsentLayerShown = true
    · simp [step, hb]
    · have h2 : s.isConsentLayerShown = false := by
        cases hx : s.isConsentLayerShown with
        | true => exact absurd hx hb
        | false => rfl
      simp [step, h2]
  · intro s c h1 h2
    cases c with
    | didReceiveConsent con => rfl
    | didShowConsentLayer => exact absurd rfl h1
    | didCloseConsentLayer => exact absurd rfl h2
    | didReceiveError e => rfl
    | didChangeATTStatus o n => rfl
    | linkClick url => rfl
  · intro cs
    exact run_flags_eq cs initState rfl

/-- Closed instance of `flags_in_lockstep`: a non-layer callback (an error
callback) leaves the initial state unchanged. -/
theorem flags_in_lockstep_witness :
    (step initState (Callback.didReceiveError "boom")).1 = initState :=
  flags_in_lockstep.2.2.2.2.1 initState (Callback.didReceiveError "boom")
    (by decide) (by decide)

/-- C7: the geometry resolver gives half-screen positions the full screen
width and half the usable height (screen height less the vertical insets
when `respectsSafeArea`), with the top half starting at the top inset and
the bottom half one half-height below it; a custom position with
`respectsSafeArea` insets the caller's rectangle on each edge; every other
position is full screen. -/
theorem mapPosition_geometry (screen : ScreenBounds) (insets : EdgeInsets)
    (cr : Option WebViewRect) (rsa : Bool) (r : WebViewRect) :
    mapPosition screen insets (some "halfScreenTop") cr rsa =
      Position.custom
        { x := 0, y := if rsa then insets.top else 0,
          width := screen.width,
          height := (screen.height -
            (if rsa then insets.top + insets.bottom else 0)) / 2 } ∧
    mapPosition screen insets (some "halfScreenBottom") cr rsa =
      Position.custom
        { x := 0,
          y := (if rsa then insets.top else 0) +
            (screen.height - (if rsa then insets.top + insets.bottom else 0)) / 2,
          width := screen.width,
          height := (screen.height -
            (if rsa then insets.top + insets.bottom else 0)) / 2 } ∧
    mapPosition screen insets (some "custom") (some r) true =
      Position.custom
        { x := r.x + insets.left, y := r.y + insets.top,
          width := r.width - (insets.left + insets.right),
          height := r.height - (insets.top + insets.bottom) } ∧
    (∀ p : String, p ≠ "halfScreenTop" → p ≠ "halfScreenBottom" →
      p ≠ "custom" →
      mapPosition screen insets (some p) cr rsa = Position.fullScreen) ∧
    mapPosition screen insets Option.none cr rsa = Position.fullScreen := by
  refine ⟨?_, ?_, ?_, ?_, ?_⟩
  · cases cr <;> simp [mapPosition]
  · cases cr <;> simp [mapPosition]
  · simp [mapPosition, rectFromDictionary]
  · intro p h1 h2 h3
    cases cr <;> simp [mapPosition, h1, h2, h3]
  · cases cr <;> simp [mapPosition]

/-- Closed instance of `mapPosition_geometry`: the position "fullScreen"
resolves to full-screen bounds. -/
theorem mapPosition_geometry_witness :
    mapPosition { width := 390, height := 844 }
        { top := 47, bottom := 34, left := 0, right := 0 }
        (some "fullScreen") Option.none true = Position.fullScreen :=
  (mapPosition_geometry { width := 390, height := 844 }
      { top := 47, bottom := 34, left := 0, right := 0 } Option.none true
      { x := 0, y := 0, width := 1, height := 1 }).2.2.2.1 "fullScreen"
    (by decide) (by decide) (by decide)

/-- Shape of every successful normalization: the output fields are the
input fields with the documented defaults filled, and the background style
is the normalized one. -/
lemma normalizeWebViewConfig_ok (pc : ColorVal → Option Int)
    (config : WebViewConfig) (out : NormalizedWebViewConfig)
    (h : normalizeWebViewConfig pc config = Except.ok out) :
    out.position = config.position.getD "fullScreen" ∧
    out.customRect = config.customRect ∧
    out.cornerRadius = config.cornerRadius.getD 5 ∧
    out.respectsSafeArea = config.respectsSafeArea.getD true ∧
    out.allowsOrientationChanges = config.allowsOrientationChanges.getD true ∧
    normalizeBackgroundStyle pc config.backgroundStyle =
      Except.ok out.backgroundStyle := by
  unfold normalizeWebViewConfig at h
  split_ifs at h with h1 h2
  cases hbg : normalizeBackgroundStyle pc config.backgroundStyle with
  | error e => rw [hbg] at h; cases h
  | ok bg =>
    rw [hbg] at h
    injection h with h3
    subst h3
    exact ⟨rfl, rfl, rfl, rfl, rfl, rfl⟩

/-- C1: normalization fills the documented defaults (position fullScreen,
cornerRadius 5, respectsSafeArea true, allowsOrientationChanges true,
background dimmed with resolved black at opacity 1/2), and normalizing
`{position: halfScreenBottom}` yields exactly the fully defaulted config. -/
theorem normalizeWebViewConfig_fills_defaults (pc : ColorVal → Option Int)
    (bk : Int) (hblack : pc (ColorVal.str "black") = some bk) :
    (∀ config out, normalizeWebViewConfig pc config = Except.ok out →
      (config.position = Option.none → out.position = "fullScreen") ∧
      (config.cornerRadius = Option.none → out.cornerRadius = 5) ∧
      (config.respectsSafeArea = Option.none → out.respectsSafeArea = true) ∧
      (config.allowsOrientationChanges = Option.none →
        out.allowsOrientationChanges = true) ∧
      (config.backgroundStyle = Option.none →
        out.backgroundStyle =
          { type := "dimmed", color := some bk, opacity := some (1/2),
            blurEffectStyle := Option.none })) ∧
    normalizeWebViewConfig pc { position := some "halfScreenBottom" } =
      Except.ok
        { position := "halfScreenBottom", customRect := Option.none,
          cornerRadius := 5, respectsSafeArea := true,
          allowsOrientationChanges := true,
          backgroundStyle :=
            { type := "dimmed", color := some bk, opacity := some (1/2),
              blurEffectStyle := Option.none } } := by
  constructor
  · intro config out h
    obtain ⟨hp, hr, hc, hs, ha, hbg⟩ := normalizeWebViewConfig_ok pc config out h
    refine ⟨fun hx => by rw [hp, hx]; rfl, fun hx => by rw [hc, hx]; rfl,
      fun hx => by rw [hs, hx]; rfl, fun hx => by rw [ha, hx]; rfl, fun hx => ?_⟩
    rw [hx] at hbg
    simp only [normalizeBackgroundStyle, normalizeColor, hblack] at hbg
    injection hbg with h2
    exact h2.symm
  · simp only [normalizeWebViewConfig]
    rw [if_neg (by decide), if_neg (by decide)]
    simp only [normalizeBackgroundStyle, normalizeColor, hblack]
    rfl

/-- Closed instance of `normalizeWebViewConfig_fills_defaults` under the
sample resolver. -/
theorem normalizeWebViewConfig_fills_defaults_witness :
    pcMock (ColorVal.str "black") = some 4278190080 ∧
    normalizeWebViewConfig pcMock { position := some "halfScreenBottom" } =
      Except.ok
        { position := "halfScreenBottom", customRect := Option.none,
          cornerRadius := 5, respectsSafeArea := true,
          allowsOrientationChanges := true,
          backgroundStyle :=
            { type := "dimmed", color := some 4278190080,
              opacity := some (1/2), blurEffectStyle := Option.none } } :=
  ⟨by decide,
   (normalizeWebViewConfig_fills_defaults pcMock 4278190080 (by decide)).2⟩

/-- Provided black resolves, `normalizeBackgroundStyle` fails exactly on a
`color` style whose color is absent or falsy, an unresolvable supplied
color for `dimmed` or `color`, a blur style outside the three enumerated
ones, or an unrecognized tag. -/
lemma normalizeBackgroundStyle_error_iff (pc : ColorVal → Option Int)
    (bk : Int) (hblack : pc (ColorVal.str "black") = some bk)
    (obg : Option BgStyleIn) :
    (∃ e, normalizeBackgroundStyle pc obg = Except.error e) ↔
    (∃ bg, obg = some bg ∧
      ((bg.type = "color" ∧ (bg.color = Option.none ∨
         ∃ c, bg.color = some c ∧ c.isFalsy = true)) ∨
       ((bg.type = "dimmed" ∨ bg.type = "color") ∧
         ∃ c, bg.color = some c ∧ pc c = Option.none) ∨
       (bg.type = "blur" ∧
         ¬ bg.blurEffectStyle.getD "dark" ∈
           (["light", "dark", "extraLight"] : List String)) ∨
       ¬ bg.type ∈ (["dimmed", "color", "blur", "none"] : List String))) := by
  cases obg with
  | none => simp [normalizeBackgroundStyle, normalizeColor, hblack]
  | some bg =>
    by_cases h1 : bg.type = "dimmed"
    · cases hc : bg.color with
      | none =>
        simp [normalizeBackgroundStyle, normalizeColor, h1, hc, hblack]
      | some c =>
        cases hpc : pc c with
        | none =>
          simp [normalizeBackgroundStyle, normalizeColor, h1, hc, hpc]
        | some v =>
          simp [normalizeBackgroundStyle, normalizeColor, h1, hc, hpc]
    · by_cases h2 : bg.type = "color"
      · cases hc : bg.color with
        | none =>
          simp [normalizeBackgroundStyle, normalizeColor, h1, h2, hc]
        | some c =>
          by_cases hf : c.isFalsy = true
          · simp [normalizeBackgroundStyle, normalizeColor, h1, h2, hc, hf]
          · cases hpc : pc c with
            | none =>
              simp [normalizeBackgroundStyle, normalizeColor, h1, h2, hc, hf,
                hpc]
            | some v =>
              simp [normalizeBackgroundStyle, normalizeColor, h1, h2, hc, hf,
                hpc]
      · by_cases h3 : bg.type = "blur"
        · by_cases h4 : bg.blurEffectStyle.getD "dark" ∈
            (["light", "dark", "extraLight"] : List String)
          · have h5 : ¬ (bg.blurEffectStyle.getD "dark" ≠ BlurEffectStyle.dark.val ∧
                bg.blurEffectStyle.getD "dark" ≠ BlurEffectStyle.light.val ∧
                bg.blurEffectStyle.getD "dark" ≠ BlurEffectStyle.extraLight.val) := by
              simp only [BlurEffectStyle.val]
              rcases (by simpa using h4 :
                  bg.blurEffectStyle.getD "dark" = "light" ∨
                  bg.blurEffectStyle.getD "dark" = "dark" ∨
                  bg.blurEffectStyle.getD "dark" = "extraLight") with h | h | h <;>
                simp [h]
            simp only [normalizeBackgroundStyle, h1, h2, h3]
            simp [h4, h5]
            refine ⟨fun hx => absurd hx h2,
              fun hx => hx.elim (fun hxx => absurd hxx h1)
                (fun hxx => absurd hxx h2),
              fun _ hx hy => ?_, fun _ _ hx => absurd h3 hx⟩
            rcases (by simpa using h4 :
                bg.blurEffectStyle.getD "dark" = "light" ∨
                bg.blurEffectStyle.getD "dark" = "dark" ∨
                bg.blurEffectStyle.getD "dark" = "extraLight") with h | h | h
            · exact absurd h hx
            · exact absurd h hy
            · exact h
          · have h5 : bg.blurEffectStyle.getD "dark" ≠ BlurEffectStyle.dark.val ∧
                bg.blurEffectStyle.getD "dark" ≠ BlurEffectStyle.light.val ∧
                bg.blurEffectStyle.getD "dark" ≠ BlurEffectStyle.extraLight.val := by
              simp only [BlurEffectStyle.val]
              refine ⟨fun hx => h4 (by simp [hx]), fun hx => h4 (by simp [hx]),
                fun hx => h4 (by simp [hx])⟩
            simp only [normalizeBackgroundStyle, h1, h2, h3]
            simp [h4, h5]
            simp only [BlurEffectStyle.val] at h5
            exact Or.inr (Or.inr (Or.inl ⟨h3, h5.2.1, h5.1, h5.2.2⟩))
        · by_cases h6 : bg.type = "none"
          · simp [normalizeBackgroundStyle, h1, h2, h3, h6]
          · simp [normalizeBackgroundStyle, h1, h2, h3, h6]

/-- C2 (amended): `normalizeWebViewConfig` raises a validation error
exactly in the spec's enumerated cases, with the `color` case amended to
cover an absent **or falsy** color (the source guards with JavaScript
falsiness, so the number 0 and the empty string are also rejected); on
error `setWebViewConfig` performs no native call (the error surfaces
synchronously, before the bridge). -/
theorem setWebViewConfig_validation_errors (pc : ColorVal → Option Int)
    (bk : Int) (hblack : pc (ColorVal.str "black") = some bk)
    (config : WebViewConfig) :
    ((∃ e, normalizeWebViewConfig pc config = Except.error e) ↔
      specWebViewConfigErrorCasesAmended pc config) ∧
    (∀ e, normalizeWebViewConfig pc config = Except.error e →
      setWebViewConfigOp pc config = (Except.error e, [])) := by
  constructor
  · by_cases h1 : allowedPositions.contains
        (config.position.getD WebViewPosition.fullScreen.val) = false
    · have hmem : ¬ config.position.getD "fullScreen" ∈ allowedPositions := by
        simpa [List.contains, WebViewPosition.val] using h1
      constructor
      · intro _
        exact Or.inl hmem
      · intro _
        refine ⟨"Invalid WebView position", ?_⟩
        simp only [normalizeWebViewConfig]
        rw [if_pos h1]
    · by_cases h2 : config.position.getD WebViewPosition.fullScreen.val =
          WebViewPosition.custom.val ∧ config.customRect = Option.none
      · constructor
        · intro _
          exact Or.inr (Or.inl (by simpa [WebViewPosition.val] using h2))
        · intro _
          refine ⟨"customRect is required when position is custom", ?_⟩
          simp only [normalizeWebViewConfig]
          rw [if_neg h1, if_pos h2]
      · cases hbg : normalizeBackgroundStyle pc config.backgroundStyle with
        | error e =>
          constructor
          · intro _
            exact Or.inr (Or.inr
              ((normalizeBackgroundStyle_error_iff pc bk hblack
                config.backgroundStyle).mp ⟨e, hbg⟩))
          · intro _
            refine ⟨e, ?_⟩
            simp only [normalizeWebViewConfig]
            rw [if_neg h1, if_neg h2, hbg]
        | ok bg =>
          have hnone : normalizeWebViewConfig pc config = Except.ok
              { position := config.position.getD WebViewPosition.fullScreen.val
                customRect := config.customRect
                cornerRadius := config.cornerRadius.getD 5
                respectsSafeArea := config.respectsSafeArea.getD true
                allowsOrientationChanges :=
                  config.allowsOrientationChanges.getD true
                backgroundStyle := bg } := by
            simp only [normalizeWebViewConfig]
            rw [if_neg h1, if_neg h2, hbg]
          constructor
          · intro hx
            obtain ⟨e, he⟩ := hx
            rw [hnone] at he
            cases he
          · intro hx
            rcases hx with hx | hx | hx
            · exact absurd (by simpa [List.contains, WebViewPosition.val]
                using hx : ¬ _) (by simpa using h1)
            · exact absurd (by simpa [WebViewPosition.val] using hx) h2
            · obtain ⟨e, he⟩ := (normalizeBackgroundStyle_error_iff pc bk hblack
                config.backgroundStyle).mpr hx
              rw [hbg] at he
              cases he
  · intro e h
    simp only [setWebViewConfigOp, h]

/-- Closed instance of `setWebViewConfig_validation_errors` under the
sample resolver: a custom position without a rectangle is an error case. -/
theorem setWebViewConfig_validation_errors_witness :
    pcMock (ColorVal.str "black") = some 4278190080 ∧
    ((∃ e, normalizeWebViewConfig pcMock { position := some "custom" } =
        Except.error e) ↔
      specWebViewConfigErrorCasesAmended pcMock { position := some "custom" }) :=
  ⟨by decide,
   (setWebViewConfig_validation_errors pcMock 4278190080 (by decide)
      { position := some "custom" }).1⟩

/-- C2 counterexample: at `backgroundStyle = {type: color, color: 0}` the
program throws (JavaScript falsiness of the present color 0), yet none of
the claim's enumerated cases applies — the color is present and the
resolver accepts 0 — so the claim's "exactly these cases" equivalence is
false of the program. -/
theorem setWebViewConfig_validation_errors_counterexample :
    (∃ e, normalizeWebViewConfig pcMock
        { backgroundStyle :=
            some { type := "color", color := some (ColorVal.num 0) } } =
      Except.error e) ∧
    ¬ specWebViewConfigErrorCases pcMock
        { backgroundStyle :=
            some { type := "color", color := some (ColorVal.num 0) } } := by
  constructor
  · exact ⟨"color is required for backgroundStyle color", by rfl⟩
  · intro h
    rcases h with h | h | ⟨bg, hbg, hcase⟩
    · exact h (by decide)
    · exact absurd h.1 (by decide)
    · injection hbg with hbg
      subst hbg
      rcases hcase with ⟨_, hc⟩ | ⟨_, c, hc, hpc⟩ | ⟨ht, _⟩ | ht
      · exact absurd hc (by decide)
      · injection hc with hc
        subst hc
        exact absurd hpc (by decide)
      · exact absurd ht (by decide)
      · exact ht (by decide)

/-- C10: normalization passes `customRect` through untouched and
unvalidated: every successful output carries the input's `customRect`
(also when the position is not custom), and replacing one rectangle by any
other changes neither success nor any other output field — no range or
sign check ever looks inside it. (The embedding is pure, matching the
source, which builds a fresh object literal and never writes to its
input.) -/
theorem normalize_customRect_passthrough (pc : ColorVal → Option Int) :
    (∀ config out, normalizeWebViewConfig pc config = Except.ok out →
      out.customRect = config.customRect) ∧
    (∀ (config : WebViewConfig) (r1 r2 : WebViewRect),
      normalizeWebViewConfig pc { config with customRect := some r1 } =
        Except.map (fun o => { o with customRect := some r1 })
          (normalizeWebViewConfig pc { config with customRect := some r2 })) := by
  constructor
  · intro config out h
    exact (normalizeWebViewConfig_ok pc config out h).2.1
  · intro config r1 r2
    simp only [normalizeWebViewConfig]
    by_cases h1 : allowedPositions.contains
        (config.position.getD WebViewPosition.fullScreen.val) = false
    · rw [if_pos h1, if_pos h1]
      rfl
    · rw [if_neg h1, if_neg h1,
        if_neg (fun hx => Option.noConfusion hx.2),
        if_neg (fun hx => Option.noConfusion hx.2)]
      cases hbg : normalizeBackgroundStyle pc config.backgroundStyle with
      | error e => rfl
      | ok bg => rfl

/-- Closed instance of `normalize_customRect_passthrough`: a rectangle
with negative origin and huge width is carried through unchanged under a
non-custom position. -/
theorem normalize_customRect_passthrough_witness :
    normalizeWebViewConfig pcMock
        { position := some "fullScreen",
          customRect := some { x := -5, y := -7, width := 100000, height := 3 } } =
      Except.ok
        { position := "fullScreen",
          customRect := some { x := -5, y := -7, width := 100000, height := 3 },
          cornerRadius := 5, respectsSafeArea := true,
          allowsOrientationChanges := true,
          backgroundStyle :=
            { type := "dimmed", color := some 4278190080,
              opacity := some (1/2), blurEffectStyle := Option.none } } ∧
    ({ position := "fullScreen",
       customRect := some
         ({ x := -5, y := -7, width := 100000, height := 3 } : WebViewRect),
       cornerRadius := 5, respectsSafeArea := true,
       allowsOrientationChanges := true,
       backgroundStyle :=
         { type := "dimmed", color := some 4278190080,
           opacity := some (1/2), blurEffectStyle := Option.none } } :
        NormalizedWebViewConfig).customRect =
      ({ position := some "fullScreen",
         customRect := some { x := -5, y := -7, width := 100000, height := 3 } } :
        WebViewConfig).customRect :=
  ⟨by rfl,
   (normalize_customRect_passthrough pcMock).1
     { position := some "fullScreen",
       customRect := some { x := -5, y := -7, width := 100000, height := 3 } }
     { position := "fullScreen",
       customRect := some { x := -5, y := -7, width := 100000, height := 3 },
       cornerRadius := 5, respectsSafeArea := true,
       allowsOrientationChanges := true,
       backgroundStyle :=
         { type := "dimmed", color := some 4278190080,
           opacity := some (1/2), blurEffectStyle := Option.none } }
     (by rfl)⟩

end CmSdk
